import Mathlib

/-!
Verification of the FarmerMarketSystem authentication / CSRF core.

The Go source under verification:
* `backend/internal/utils/csrf.go` : `SetCSRFToken`, `ValidateCSRFToken`
  (double-submit CSRF pattern, base64.StdEncoding over 32 random bytes);
* two `main.go` route tables wiring `middleware.Authenticate`,
  `middleware.AdminOnly` and `middleware.CORS` around handlers.

Machine bytes are modelled as `Nat` below 256; the entropy source
`crypto/rand.Read` is a parameter producing either an error or a byte list.
-/

namespace FMS

/-- The standard base64 alphabet used by Go `encoding/base64.StdEncoding`
(the `encodeStd` constant of `encoding/base64`). -/
def b64Alphabet : List Char :=
  "ABCDEFGHIJKLMNOPQRSTUVWXYZabcdefghijklmnopqrstuvwxyz0123456789+/".data

/-- Encode one 6-bit group as its base64 alphabet character. -/
def encChar (n : Nat) : Char := b64Alphabet.getD n 'A'

/-- Position of a character in a list, counting from `i`. -/
def findIdxFrom (ch : Char) : List Char → Nat → Option Nat
  | [], _ => none
  | c :: rest, i => if c = ch then some i else findIdxFrom ch rest (i + 1)

/-- Decode one base64 character back to its 6-bit value (`none` for
characters outside the alphabet, in particular for the pad `=`). -/
def decChar (ch : Char) : Option Nat := findIdxFrom ch b64Alphabet 0

/-- Base64 (StdEncoding) encoding of a byte list, three bytes to four
characters, with `=` padding exactly as in Go `encoding/base64`. -/
def b64EncodeChunks : List Nat → List Char
  | a :: b :: c :: rest =>
      encChar (a / 4) :: encChar (a % 4 * 16 + b / 16) ::
      encChar (b % 16 * 4 + c / 64) :: encChar (c % 64) ::
      b64EncodeChunks rest
  | [a, b] => [encChar (a / 4), encChar (a % 4 * 16 + b / 16), encChar (b % 16 * 4), '=']
  | [a] => [encChar (a / 4), encChar (a % 4 * 16), '=', '=']
  | [] => []

/-- Base64 (StdEncoding) decoding: four characters to three bytes, padding
only at the very end, `none` on any malformed input. -/
def b64DecodeChunks : List Char → Option (List Nat)
  | [] => some []
  | w :: x :: y :: z :: rest =>
    match decChar w, decChar x with
    | some sw, some sx =>
      if y = '=' then
        if z = '=' ∧ rest = [] then some [sw * 4 + sx / 16] else none
      else
        match decChar y with
        | some sy =>
          if z = '=' then
            if rest = [] then some [sw * 4 + sx / 16, sx % 16 * 16 + sy / 4] else none
          else
            match decChar z with
            | some sz =>
              match b64DecodeChunks rest with
              | some bs =>
                  some ((sw * 4 + sx / 16) :: (sx % 16 * 16 + sy / 4) ::
                        (sy % 4 * 64 + sz) :: bs)
              | none => none
            | none => none
        | none => none
    | _, _ => none
  | _ => none

/-- Go `base64.StdEncoding.EncodeToString`. -/
def base64StdEncode (bytes : List Nat) : String := String.mk (b64EncodeChunks bytes)

/-- Go `base64.StdEncoding.DecodeString` (returning `none` on error). -/
def base64StdDecode (s : String) : Option (List Nat) := b64DecodeChunks s.data

theorem decChar_encChar_fin : ∀ i : Fin 64, decChar (encChar i.val) = some i.val := by
  decide

theorem decChar_encChar (s : Nat) (h : s < 64) : decChar (encChar s) = some s :=
  decChar_encChar_fin ⟨s, h⟩

theorem encChar_ne_pad_fin : ∀ i : Fin 64, encChar i.val ≠ '=' := by
  decide

theorem encChar_ne_pad (s : Nat) (h : s < 64) : encChar s ≠ '=' :=
  encChar_ne_pad_fin ⟨s, h⟩

theorem b64_roundtrip :
    ∀ l : List Nat, (∀ b ∈ l, b < 256) →
      b64DecodeChunks (b64EncodeChunks l) = some l
  | [], _ => rfl
  | [a], h => by
      have ha : a < 256 := h a (by simp)
      have h1 : a / 4 < 64 := by omega
      have h2 : a % 4 * 16 < 64 := by omega
      simp only [b64EncodeChunks, b64DecodeChunks,
        decChar_encChar _ h1, decChar_encChar _ h2]
      simp only [if_pos rfl, and_self, ite_true]
      have e1 : a / 4 * 4 + a % 4 * 16 / 16 = a := by omega
      rw [e1]
  | [a, b], h => by
      have ha : a < 256 := h a (by simp)
      have hb : b < 256 := h b (by simp)
      have h1 : a / 4 < 64 := by omega
      have h2 : a % 4 * 16 + b / 16 < 64 := by omega
      have h3 : b % 16 * 4 < 64 := by omega
      simp only [b64EncodeChunks, b64DecodeChunks,
        decChar_encChar _ h1, decChar_encChar _ h2, decChar_encChar _ h3,
        encChar_ne_pad _ h3, ite_false, if_pos rfl, ite_true]
      have e1 : a / 4 * 4 + (a % 4 * 16 + b / 16) / 16 = a := by omega
      have e2 : (a % 4 * 16 + b / 16) % 16 * 16 + b % 16 * 4 / 4 = b := by omega
      rw [e1, e2]
  | a :: b :: c :: rest, h => by
      have ha : a < 256 := h a (by simp)
      have hb : b < 256 := h b (by simp)
      have hc : c < 256 := h c (by simp)
      have h1 : a / 4 < 64 := by omega
      have h2 : a % 4 * 16 + b / 16 < 64 := by omega
      have h3 : b % 16 * 4 + c / 64 < 64 := by omega
      have h4 : c % 64 < 64 := by omega
      have ih : b64DecodeChunks (b64EncodeChunks rest) = some rest :=
        b64_roundtrip rest (fun x hx => h x (by simp [hx]))
      simp only [b64EncodeChunks, b64DecodeChunks,
        decChar_encChar _ h1, decChar_encChar _ h2, decChar_encChar _ h3,
        decChar_encChar _ h4, encChar_ne_pad _ h3, encChar_ne_pad _ h4,
        ite_false, ih]
      have e1 : a / 4 * 4 + (a % 4 * 16 + b / 16) / 16 = a := by omega
      have e2 : (a % 4 * 16 + b / 16) % 16 * 16 + (b % 16 * 4 + c / 64) / 4 = b := by omega
      have e3 : (b % 16 * 4 + c / 64) % 4 * 64 + c % 64 = c := by omega
      rw [e1, e2, e3]

/-- Go `http.SameSite` cookie policy values. -/
inductive SameSite where
  | defaultMode
  | laxMode
  | strictMode
  | noneMode
deriving DecidableEq, Repr

/-- The fields of the Go `http.Cookie` literal built by `SetCSRFToken`.
The expiry `time.Now().Add(24 * time.Hour)` is modelled as an offset in
hours from the request time. -/
structure Cookie where
  name : String
  value : String
  path : String
  expiresHoursFromNow : Nat
  httpOnly : Bool
  secure : Bool
  sameSite : SameSite
deriving DecidableEq, Repr

/-- The outgoing response, reduced to the list of Set-Cookie headers
(the only part of it the CSRF guard touches). -/
structure ResponseWriter where
  cookies : List Cookie
deriving DecidableEq, Repr

/-- Go `http.SetCookie w cookie`: appends one Set-Cookie header. -/
def SetCookie (w : ResponseWriter) (c : Cookie) : ResponseWriter :=
  { cookies := w.cookies ++ [c] }

/-- `utils.SetCSRFToken`.  The entropy source `crypto/rand.Read` is the
parameter `randSource`: applied to the requested byte count (the code
allocates `make([]byte, 32)`), it yields either the read error or the
bytes.  Returns the Go pair `(string, error)` together with the updated
response. -/
def SetCSRFToken (randSource : Nat → Except String (List Nat))
    (w : ResponseWriter) : (String × Option String) × ResponseWriter :=
  match randSource 32 with
  | .error e => (("", some e), w)
  | .ok tokenBytes =>
    let token := base64StdEncode tokenBytes
    let cookie : Cookie :=
      { name := "csrf_token"
        value := token
        path := "/"
        expiresHoursFromNow := 24
        httpOnly := true
        secure := true
        sameSite := .noneMode }
    ((token, none), SetCookie w cookie)

/-- The three errors `utils.ValidateCSRFToken` can return; the spec names
them `CSRFMissingField`, `CSRFMissingCookie`, `CSRFMismatch`. -/
inductive CSRFError where
  | missingField
  | missingCookie
  | mismatch
deriving DecidableEq, Repr

/-- The exact `errors.New` message the Go code attaches to each error. -/
def CSRFError.message : CSRFError → String
  | .missingField => "csrf token not provided"
  | .missingCookie => "csrf token cookie not found"
  | .mismatch => "invalid csrf token"

/-- The projection of an incoming request that `ValidateCSRFToken` reads:
`r.FormValue "csrf_token"` (the empty string when the field is absent) and
`r.Cookie "csrf_token"` (`none` when no such cookie exists). -/
structure Request where
  csrfFormValue : String
  csrfCookie : Option String
deriving DecidableEq, Repr

/-- `utils.ValidateCSRFToken`: `none` is silent success. -/
def ValidateCSRFToken (r : Request) : Option CSRFError :=
  let formToken := r.csrfFormValue
  if formToken = "" then some .missingField
  else
    match r.csrfCookie with
    | none => some .missingCookie
    | some cookieValue =>
      if formToken ≠ cookieValue then some .mismatch else none

/-- A handler expression of the route tables: a named domain handler
wrapped in zero or more of `middleware.CORS`, `middleware.Authenticate`,
`middleware.AdminOnly`, innermost last. -/
inductive Mw where
  | handler (name : String)
  | cors (inner : Mw)
  | authenticate (inner : Mw)
  | adminOnly (inner : Mw)
deriving DecidableEq, Repr

/-- The route table registered by `main` in the file holding the larger
route set (the `/admin/...`-prefixed table). -/
def routesAdminPrefixed : List (String × Mw) :=
  [("/favicon.ico", .handler "http.NotFound"),
   ("/", .handler "adminHandler.Root"),
   ("/admin/register", .handler "adminHandler.Register"),
   ("/admin/login", .handler "adminHandler.Login"),
   ("/admin/logout", .authenticate (.handler "adminHandler.Logout")),
   ("/admin/dashboard", .authenticate (.handler "adminHandler.Dashboard")),
   ("/admin/dashboard/pending-farmers",
     .authenticate (.adminOnly (.handler "farmerHandler.ListPendingFarmers"))),
   ("/admin/dashboard/farmer-profile",
     .authenticate (.adminOnly (.handler "farmerHandler.ViewFarmerProfile"))),
   ("/admin/dashboard/approve-farmer",
     .authenticate (.adminOnly (.handler "farmerHandler.ApproveFarmer"))),
   ("/admin/dashboard/reject-farmer",
     .authenticate (.adminOnly (.handler "farmerHandler.RejectFarmer"))),
   ("/admin/users",
     .authenticate (.adminOnly (.handler "adminHandler.ListUsers"))),
   ("/admin/users/toggle-farmer-status",
     .authenticate (.adminOnly (.handler "farmerHandler.ToggleFarmerStatus"))),
   ("/admin/users/edit-farmer",
     .authenticate (.adminOnly (.handler "farmerHandler.EditFarmer"))),
   ("/admin/users/delete-farmer",
     .authenticate (.adminOnly (.handler "farmerHandler.DeleteFarmer"))),
   ("/admin/users/toggle-buyer-status",
     .authenticate (.adminOnly (.handler "buyerHandler.ToggleBuyerStatus"))),
   ("/admin/users/edit-buyer",
     .authenticate (.adminOnly (.handler "buyerHandler.EditBuyer"))),
   ("/admin/users/delete-buyer",
     .authenticate (.adminOnly (.handler "buyerHandler.DeleteBuyer"))),
   ("/buyer/register", .cors (.handler "buyerHandler.Register")),
   ("/buyer/login", .cors (.handler "buyerHandler.Login")),
   ("/buyer/logout", .cors (.authenticate (.handler "buyerHandler.Logout"))),
   ("/buyer/home", .cors (.authenticate (.handler "buyerHandler.Home"))),
   ("/buyer/product/", .cors (.handler "productHandler.GetProductDetails")),
   ("/cart", .cors (.authenticate (.handler "cartHandler.GetCart"))),
   ("/cart/add", .cors (.authenticate (.handler "cartHandler.AddToCart"))),
   ("/cart/remove/", .cors (.authenticate (.handler "cartHandler.RemoveFromCart"))),
   ("/cart/update", .cors (.authenticate (.handler "cartHandler.UpdateCart"))),
   ("/checkout", .cors (.authenticate (.handler "cartHandler.Checkout"))),
   ("/farmer/register", .cors (.handler "farmerHandler.Register")),
   ("/farmer/login", .cors (.handler "farmerHandler.Login")),
   ("/farmer/logout", .cors (.authenticate (.handler "farmerHandler.Logout"))),
   ("/farmer/dashboard", .cors (.authenticate (.handler "farmerHandler.Dashboard"))),
   ("/farmer/product/add-product",
     .cors (.authenticate (.handler "farmerHandler.AddProduct"))),
   ("/farmer/product/list-products",
     .cors (.authenticate (.handler "farmerHandler.ListProducts"))),
   ("/farmer/product/edit-product",
     .cors (.authenticate (.handler "farmerHandler.EditProduct"))),
   ("/farmer/product/delete-product",
     .cors (.authenticate (.handler "farmerHandler.DeleteProduct")))]

/-- The route table registered by `main` in the other file (the
`/dashboard`-prefixed table). -/
def routesDashboardPrefixed : List (String × Mw) :=
  [("/favicon.ico", .handler "http.NotFound"),
   ("/register", .handler "adminHandler.Register"),
   ("/login", .handler "adminHandler.Login"),
   ("/logout", .authenticate (.handler "adminHandler.Logout")),
   ("/dashboard", .authenticate (.handler "adminHandler.Dashboard")),
   ("/dashboard/pending-farmers",
     .authenticate (.adminOnly (.handler "farmerHandler.ListPendingFarmers"))),
   ("/dashboard/farmer-profile",
     .authenticate (.adminOnly (.handler "farmerHandler.ViewFarmerProfile"))),
   ("/dashboard/approve-farmer",
     .authenticate (.adminOnly (.handler "farmerHandler.ApproveFarmer"))),
   ("/dashboard/reject-farmer",
     .authenticate (.adminOnly (.handler "farmerHandler.RejectFarmer"))),
   ("/admin/users",
     .authenticate (.adminOnly (.handler "adminHandler.ListUsers"))),
   ("/admin/users/toggle-farmer-status",
     .authenticate (.adminOnly (.handler "farmerHandler.ToggleFarmerStatus"))),
   ("/admin/users/edit-farmer",
     .authenticate (.adminOnly (.handler "farmerHandler.EditFarmer"))),
   ("/admin/users/delete-farmer",
     .authenticate (.adminOnly (.handler "farmerHandler.DeleteFarmer"))),
   ("/admin/users/toggle-buyer-status",
     .authenticate (.adminOnly (.handler "buyerHandler.ToggleBuyerStatus"))),
   ("/admin/users/edit-buyer",
     .authenticate (.adminOnly (.handler "buyerHandler.EditBuyer"))),
   ("/admin/users/delete-buyer",
     .authenticate (.adminOnly (.handler "buyerHandler.DeleteBuyer"))),
   ("/buyer/register", .cors (.handler "buyerHandler.Register")),
   ("/buyer/login", .cors (.handler "buyerHandler.Login")),
   ("/buyer/logout", .cors (.authenticate (.handler "buyerHandler.Logout"))),
   ("/farmer/register", .cors (.handler "farmerHandler.Register")),
   ("/farmer/login", .cors (.handler "farmerHandler.Login")),
   ("/farmer/logout", .cors (.authenticate (.handler "farmerHandler.Logout")))]

/-- `adminOnlyUnderAuth e underAuth` holds when every `adminOnly` node in
`e` sits (not necessarily immediately) inside an `authenticate` node;
`underAuth` records whether an `authenticate` wrapper encloses `e`. -/
def adminOnlyUnderAuth : Mw → Bool → Bool
  | .handler _, _ => true
  | .cors inner, u => adminOnlyUnderAuth inner u
  | .authenticate inner, _ => adminOnlyUnderAuth inner true
  | .adminOnly inner, u => u && adminOnlyUnderAuth inner u

/-- The three user roles of the system. -/
inductive Role where
  | admin
  | farmer
  | buyer
deriving DecidableEq, Repr

/-- Modelled from the spec: the Request Identity (user identifier and
role) that the Authentication Middleware resolves and attaches to the
request context; the middleware source is not part of the repository
snapshot, only its callers are. -/
structure Identity where
  userID : Nat
  role : Role
deriving DecidableEq, Repr

/-- Modelled from the spec: the projection of an inbound request the
middleware reads — the session cookie value (if any) and the identity
attached to the request context by an enclosing Authentication layer. -/
structure HReq where
  sessionCookie : Option String
  ctxIdentity : Option Identity
deriving DecidableEq, Repr

/-- Modelled from the spec: the observable outcome of running a handler
chain — the HTTP status produced, and the list of identities with which
the innermost (domain) handler was invoked, recorded for the
never-invoked / invoked-exactly-once properties. -/
structure HResp where
  status : Nat
  invoked : List Identity
deriving DecidableEq, Repr

/-- Modelled from the spec: a handler is a function from requests to
observable outcomes; middleware maps handlers to handlers. -/
def Handler : Type := HReq → HResp

/-- Modelled from the spec: a probe domain handler that answers with
status `s` and records the identity found in the request context. -/
def probeHandler (s : Nat) : Handler := fun req =>
  { status := s, invoked := req.ctxIdentity.toList }

/-- Modelled from the spec: the Authentication Middleware
(`middleware.Authenticate`, absent from the snapshot).  `lookup` is the
Session Store Adapter, `none` covering both not-found and expired.  With
no session cookie, or a failed lookup, it answers HTTP 401 without
invoking the wrapped handler; on success it attaches the resolved
identity to the context and invokes the wrapped handler. -/
def Authenticate (lookup : String → Option Identity) (next : Handler) : Handler :=
  fun req =>
    match req.sessionCookie with
    | none => { status := 401, invoked := [] }
    | some sid =>
      match lookup sid with
      | none => { status := 401, invoked := [] }
      | some ident => next { req with ctxIdentity := some ident }

/-- Modelled from the spec: the Role Authorization Middleware for a
permitted-role set.  Without an attached identity it fails with the
internal `IdentityNotPresent` server fault (a 500, not a client error);
with an attached identity whose role is outside the permitted set it
answers HTTP 403 without invoking the wrapped handler; otherwise it
invokes the wrapped handler unchanged. -/
def RoleAuthorize (permitted : List Role) (next : Handler) : Handler :=
  fun req =>
    match req.ctxIdentity with
    | none => { status := 500, invoked := [] }
    | some ident =>
      if ident.role ∈ permitted then next req
      else { status := 403, invoked := [] }

/-- Modelled from the spec: `middleware.AdminOnly` is Role Authorization
with the permitted set containing exactly the admin role. -/
def AdminOnly (next : Handler) : Handler := RoleAuthorize [Role.admin] next

/-- An entropy source is well-behaved when a successful read returns
exactly the requested number of bytes, each below 256 (the contract of
`crypto/rand.Read`). -/
def GoodRandSource (rs : Nat → Except String (List Nat)) : Prop :=
  ∀ n l, rs n = .ok l → l.length = n ∧ ∀ b ∈ l, b < 256

/-- A concrete well-behaved entropy source: all-zero bytes. -/
def rsZero : Nat → Except String (List Nat) := fun n => .ok (List.replicate n 0)

/-- A concrete failing entropy source. -/
def rsFail : Nat → Except String (List Nat) := fun _ => .error "entropy source unavailable"

/-- The token `SetCSRFToken` issues under the all-zero entropy source. -/
def tok0 : String := "AAAAAAAAAAAAAAAAAAAAAAAAAAAAAAAAAAAAAAAAAAA="

/-- The cookie `SetCSRFToken` builds around a token value. -/
def cookieFor (t : String) : Cookie :=
  { name := "csrf_token", value := t, path := "/", expiresHoursFromNow := 24,
    httpOnly := true, secure := true, sameSite := .noneMode }

/-- A concrete session store holding exactly one session. -/
def lookupOne : String → Option Identity :=
  fun sid => if sid = "sid1" then some ⟨7, Role.admin⟩ else none

theorem rsZero_good : GoodRandSource rsZero := by
  intro n l h
  simp only [rsZero, Except.ok.injEq] at h
  subst h
  constructor
  · exact List.length_replicate n 0
  · intro b hb
    have := List.eq_of_mem_replicate hb
    omega

theorem rsFail_good : GoodRandSource rsFail := fun _ _ h => nomatch h

theorem b64EncodeChunks_ne_nil (l : List Nat) (h : l ≠ []) :
    b64EncodeChunks l ≠ [] := by
  match l with
  | [] => exact absurd rfl h
  | [a] => simp [b64EncodeChunks]
  | [a, b] => simp [b64EncodeChunks]
  | a :: b :: c :: rest => simp [b64EncodeChunks]

theorem base64StdEncode_ne_empty (l : List Nat) (h : l ≠ []) :
    base64StdEncode l ≠ "" := by
  intro hEq
  exact b64EncodeChunks_ne_nil l h (congrArg String.data hEq)

theorem SetCSRFToken_ok (rs : Nat → Except String (List Nat))
    (w w' : ResponseWriter) (t : String)
    (h : SetCSRFToken rs w = ((t, none), w')) :
    ∃ l, rs 32 = .ok l ∧ t = base64StdEncode l ∧ w' = SetCookie w (cookieFor t) := by
  cases hrs : rs 32 with
  | error e => simp [SetCSRFToken, hrs] at h
  | ok l =>
    unfold SetCSRFToken at h
    rw [hrs] at h
    simp only [Prod.mk.injEq] at h
    obtain ⟨⟨ht, -⟩, hw⟩ := h
    exact ⟨l, rfl, ht.symm, by rw [← hw, cookieFor, ← ht]⟩

/-- C1: a token issued by a successful `SetCSRFToken` validates when both
the form field and the cookie carry it, and any non-empty value differing
from it in either position makes `ValidateCSRFToken` fail with the
mismatch error. -/
theorem csrf_issue_validate_roundtrip
    (rs : Nat → Except String (List Nat)) (hgood : GoodRandSource rs)
    (w w' : ResponseWriter) (t : String)
    (hsucc : SetCSRFToken rs w = ((t, none), w')) :
    ValidateCSRFToken ⟨t, some t⟩ = none ∧
    ∀ u : String, u ≠ "" → u ≠ t →
      ValidateCSRFToken ⟨u, some t⟩ = some .mismatch ∧
      ValidateCSRFToken ⟨t, some u⟩ = some .mismatch := by
  obtain ⟨l, hrs, ht, -⟩ := SetCSRFToken_ok rs w w' t hsucc
  obtain ⟨hlen, -⟩ := hgood 32 l hrs
  have hlne : l ≠ [] := by
    intro h0
    rw [h0] at hlen
    simp at hlen
  have htne : t ≠ "" := ht ▸ base64StdEncode_ne_empty l hlne
  refine ⟨?_, ?_⟩
  · simp [ValidateCSRFToken, htne]
  · intro u hune hut
    refine ⟨?_, ?_⟩
    · simp [ValidateCSRFToken, hune, hut]
    · have htu : t ≠ u := fun h => hut h.symm
      simp [ValidateCSRFToken, htne, htu]

theorem csrf_issue_validate_roundtrip_witness :
    ValidateCSRFToken ⟨tok0, some tok0⟩ = none ∧
    ∀ u : String, u ≠ "" → u ≠ tok0 →
      ValidateCSRFToken ⟨u, some tok0⟩ = some .mismatch ∧
      ValidateCSRFToken ⟨tok0, some u⟩ = some .mismatch :=
  csrf_issue_validate_roundtrip rsZero rsZero_good ⟨[]⟩
    ⟨[cookieFor tok0]⟩ tok0 (by decide)

/-- C2: `ValidateCSRFToken` reports the missing-field error on an absent
or empty form field, the missing-cookie error on an absent cookie, the
mismatch error when both are present but differ, and succeeds silently
otherwise. -/
theorem validate_error_taxonomy (r : Request) :
    (r.csrfFormValue = "" → ValidateCSRFToken r = some .missingField) ∧
    (r.csrfFormValue ≠ "" → r.csrfCookie = none →
       ValidateCSRFToken r = some .missingCookie) ∧
    (∀ cv, r.csrfFormValue ≠ "" → r.csrfCookie = some cv →
       r.csrfFormValue ≠ cv → ValidateCSRFToken r = some .mismatch) ∧
    (∀ cv, r.csrfFormValue ≠ "" → r.csrfCookie = some cv →
       r.csrfFormValue = cv → ValidateCSRFToken r = none) := by
  refine ⟨?_, ?_, ?_, ?_⟩
  · intro hf
    simp [ValidateCSRFToken, hf]
  · intro hf hc
    simp [ValidateCSRFToken, hf, hc]
  · intro cv hf hc hne
    simp [ValidateCSRFToken, hf, hc, hne]
  · intro cv hf hc he
    have hcv : cv ≠ "" := he ▸ hf
    simp [ValidateCSRFToken, hc, he, hcv]

theorem validate_error_taxonomy_witness :
    ValidateCSRFToken ⟨"", none⟩ = some .missingField ∧
    ValidateCSRFToken ⟨"a", none⟩ = some .missingCookie ∧
    ValidateCSRFToken ⟨"a", some "b"⟩ = some .mismatch ∧
    ValidateCSRFToken ⟨"a", some "a"⟩ = none :=
  ⟨(validate_error_taxonomy ⟨"", none⟩).1 rfl,
   (validate_error_taxonomy ⟨"a", none⟩).2.1 (by decide) rfl,
   (validate_error_taxonomy ⟨"a", some "b"⟩).2.2.1 "b" (by decide) rfl (by decide),
   (validate_error_taxonomy ⟨"a", some "a"⟩).2.2.2 "a" (by decide) rfl rfl⟩

/-- C3: in both route tables, every occurrence of the `AdminOnly`
middleware is wrapped inside the `Authenticate` middleware, so a role
decision is never reached without a preceding authentication step. -/
theorem adminOnly_composed_after_auth :
    (routesAdminPrefixed.all fun p => adminOnlyUnderAuth p.2 false) = true ∧
    (routesDashboardPrefixed.all fun p => adminOnlyUnderAuth p.2 false) = true := by
  constructor <;> decide

/-- C4: with a well-behaved entropy source, every token a successful
`SetCSRFToken` returns base64-decodes to exactly 32 bytes, and an entropy
failure aborts issuance with that error and an empty token. -/
theorem token_generator_spec
    (rs : Nat → Except String (List Nat)) (hgood : GoodRandSource rs)
    (w : ResponseWriter) :
    (∀ t w', SetCSRFToken rs w = ((t, none), w') →
       ∃ bytes, base64StdDecode t = some bytes ∧ bytes.length = 32) ∧
    (∀ e, rs 32 = .error e → SetCSRFToken rs w = (("", some e), w)) := by
  refine ⟨?_, ?_⟩
  · intro t w' hsucc
    obtain ⟨l, hrs, ht, -⟩ := SetCSRFToken_ok rs w w' t hsucc
    obtain ⟨hlen, hbound⟩ := hgood 32 l hrs
    refine ⟨l, ?_, hlen⟩
    rw [ht]
    exact b64_roundtrip l hbound
  · intro e he
    simp [SetCSRFToken, he]

theorem token_generator_spec_witness :
    (∃ bytes, base64StdDecode tok0 = some bytes ∧ bytes.length = 32) ∧
    SetCSRFToken rsFail ⟨[]⟩ = (("", some "entropy source unavailable"), ⟨[]⟩) :=
  ⟨(token_generator_spec rsZero rsZero_good ⟨[]⟩).1 tok0
     ⟨[cookieFor tok0]⟩ (by decide),
   (token_generator_spec rsFail rsFail_good ⟨[]⟩).2 "entropy source unavailable" rfl⟩

/-- C5: on success `SetCSRFToken` appends exactly one cookie to the
response, named `csrf_token`, with path `/`, HttpOnly, Secure,
SameSite=None and a 24-hour expiry, whose value is the returned token. -/
theorem setCSRF_cookie_attributes
    (rs : Nat → Except String (List Nat)) (w w' : ResponseWriter) (t : String)
    (hsucc : SetCSRFToken rs w = ((t, none), w')) :
    w'.cookies = w.cookies ++
      [{ name := "csrf_token", value := t, path := "/",
         expiresHoursFromNow := 24, httpOnly := true, secure := true,
         sameSite := .noneMode }] := by
  obtain ⟨l, -, -, hw⟩ := SetCSRFToken_ok rs w w' t hsucc
  rw [hw]
  rfl

theorem setCSRF_cookie_attributes_witness :
    (ResponseWriter.mk [cookieFor tok0]).cookies =
      (ResponseWriter.mk []).cookies ++
      [{ name := "csrf_token", value := tok0, path := "/",
         expiresHoursFromNow := 24, httpOnly := true, secure := true,
         sameSite := .noneMode }] :=
  setCSRF_cookie_attributes rsZero ⟨[]⟩ ⟨[cookieFor tok0]⟩ tok0 (by decide)

/-- C6: whenever the session cookie is absent, or the session store
reports the session as not-found or expired, the Authentication
Middleware answers HTTP 401 and the wrapped handler is never invoked. -/
theorem authenticate_rejects_401
    (lookup : String → Option Identity) (next : Handler) (req : HReq)
    (h : req.sessionCookie = none ∨
         ∃ sid, req.sessionCookie = some sid ∧ lookup sid = none) :
    Authenticate lookup next req = { status := 401, invoked := [] } := by
  rcases h with hc | ⟨sid, hc, hl⟩
  · simp [Authenticate, hc]
  · simp [Authenticate, hc, hl]

theorem authenticate_rejects_401_witness :
    Authenticate lookupOne (probeHandler 200) ⟨none, none⟩ =
      { status := 401, invoked := [] } ∧
    Authenticate lookupOne (probeHandler 200) ⟨some "unknown", none⟩ =
      { status := 401, invoked := [] } :=
  ⟨authenticate_rejects_401 lookupOne (probeHandler 200) ⟨none, none⟩ (Or.inl rfl),
   authenticate_rejects_401 lookupOne (probeHandler 200) ⟨some "unknown", none⟩
     (Or.inr ⟨"unknown", rfl, by decide⟩)⟩

/-- C7: on a valid session the Authentication Middleware invokes the
wrapped handler exactly once, with the resolved identity attached to the
request context and visible to the handler. -/
theorem authenticate_valid_invokes_once
    (lookup : String → Option Identity) (sid : String) (ident : Identity)
    (req : HReq) (s : Nat)
    (hc : req.sessionCookie = some sid) (hl : lookup sid = some ident) :
    (∀ next : Handler,
       Authenticate lookup next req = next { req with ctxIdentity := some ident }) ∧
    Authenticate lookup (probeHandler s) req = { status := s, invoked := [ident] } := by
  refine ⟨?_, ?_⟩
  · intro next
    simp [Authenticate, hc, hl]
  · simp [Authenticate, hc, hl, probeHandler, Option.toList]

theorem authenticate_valid_invokes_once_witness :
    Authenticate lookupOne (probeHandler 0) ⟨some "sid1", none⟩ =
      probeHandler 0 ⟨some "sid1", some ⟨7, Role.admin⟩⟩ ∧
    Authenticate lookupOne (probeHandler 200) ⟨some "sid1", none⟩ =
      { status := 200, invoked := [⟨7, Role.admin⟩] } :=
  ⟨(authenticate_valid_invokes_once lookupOne "sid1" ⟨7, Role.admin⟩
      ⟨some "sid1", none⟩ 0 rfl (by decide)).1 (probeHandler 0),
   (authenticate_valid_invokes_once lookupOne "sid1" ⟨7, Role.admin⟩
      ⟨some "sid1", none⟩ 200 rfl (by decide)).2⟩

/-- C8: with an attached identity whose role is outside the permitted
set, the Role Authorization Middleware answers HTTP 403 without invoking
the wrapped handler, whatever the rest of the request looks like; with a
permitted role it delegates the response entirely to the wrapped
handler. -/
theorem roleAuthorize_403_or_delegate
    (permitted : List Role) (req : HReq) (ident : Identity)
    (hid : req.ctxIdentity = some ident) :
    (ident.role ∉ permitted →
       ∀ next : Handler,
         RoleAuthorize permitted next req = { status := 403, invoked := [] }) ∧
    (ident.role ∈ permitted →
       ∀ next : Handler, RoleAuthorize permitted next req = next req) := by
  refine ⟨?_, ?_⟩
  · intro hrole next
    simp [RoleAuthorize, hid, hrole]
  · intro hrole next
    simp [RoleAuthorize, hid, hrole]

theorem roleAuthorize_403_or_delegate_witness :
    RoleAuthorize [Role.admin] (probeHandler 200) ⟨none, some ⟨3, Role.buyer⟩⟩ =
      { status := 403, invoked := [] } ∧
    RoleAuthorize [Role.buyer] (probeHandler 200) ⟨none, some ⟨3, Role.buyer⟩⟩ =
      probeHandler 200 ⟨none, some ⟨3, Role.buyer⟩⟩ :=
  ⟨(roleAuthorize_403_or_delegate [Role.admin] ⟨none, some ⟨3, Role.buyer⟩⟩
      ⟨3, Role.buyer⟩ rfl).1 (by decide) (probeHandler 200),
   (roleAuthorize_403_or_delegate [Role.buyer] ⟨none, some ⟨3, Role.buyer⟩⟩
      ⟨3, Role.buyer⟩ rfl).2 (by decide) (probeHandler 200)⟩

/-- C9: when the entropy read fails, `SetCSRFToken` returns the empty
token together with the error and leaves the response untouched — no
cookie is written. -/
theorem setCSRF_entropy_failure_atomic
    (rs : Nat → Except String (List Nat)) (w : ResponseWriter) (e : String)
    (h : rs 32 = .error e) :
    SetCSRFToken rs w = (("", some e), w) := by
  simp [SetCSRFToken, h]

theorem setCSRF_entropy_failure_atomic_witness :
    SetCSRFToken rsFail ⟨[cookieFor "old"]⟩ =
      (("", some "entropy source unavailable"), ⟨[cookieFor "old"]⟩) :=
  setCSRF_entropy_failure_atomic rsFail ⟨[cookieFor "old"]⟩
    "entropy source unavailable" rfl

/-- C10: when both the form field and the cookie are missing,
`ValidateCSRFToken` reports the missing-field error, not the
missing-cookie error: the form field is checked first. -/
theorem validate_both_missing_reports_field (r : Request)
    (hf : r.csrfFormValue = "") (_hc : r.csrfCookie = none) :
    ValidateCSRFToken r = some .missingField ∧
    ValidateCSRFToken r ≠ some .missingCookie := by
  have h1 : ValidateCSRFToken r = some .missingField := by
    simp [ValidateCSRFToken, hf]
  exact ⟨h1, by simp [h1]⟩

theorem validate_both_missing_reports_field_witness :
    ValidateCSRFToken ⟨"", none⟩ = some .missingField ∧
    ValidateCSRFToken ⟨"", none⟩ ≠ some .missingCookie :=
  validate_both_missing_reports_field ⟨"", none⟩ rfl rfl

end FMS
